import Mathlib

/-!
Verification of the reservation normalization and dashboard pipeline.

Shallow embedding of `app.py` (Room Reservations Dashboard).  The program
loads a tabular record set, normalizes date/time columns (lines 80-101),
applies sidebar filters (lines 109-133), computes KPIs (lines 140-144),
buckets categorical distributions with `top_n_with_other` (lines 151-162),
builds hour / day-of-week chart inputs (lines 233-262), and snaps the
Gantt day picker to the nearest day with events (lines 351-362).

Rows of the dataframe are embedded as records; the column-wise pandas
operations of the source are all row-independent, so each derived column
is a function of a single raw record.  Machine floats only appear in the
final display rounding of one KPI, which is abstracted as exact rational
rounding; no claim depends on float representation.
-/

/-- A calendar date, the embedding of a non-null normalized `EventDate`
cell (`pd.to_datetime` result).  pandas timestamps are bounded well inside
year 1..9999, so `year` is a positive `Nat` for every parseable cell. -/
structure Date where
  year : Nat
  month : Nat
  day : Nat
deriving DecidableEq, Repr

/-- A clock time, the embedding of a non-null `StartTime_dt` / `EndTime_dt`
cell parsed with format `%I:%M%p` (hour already converted to 0-23). -/
structure TimeOfDay where
  hour : Nat
  minute : Nat
deriving DecidableEq, Repr

/-- Gregorian leap-year rule, as used by the datetime library backing
`pd.to_datetime` for validity and weekday computations. -/
def isLeapYear (y : Nat) : Bool :=
  (y % 4 = 0 && y % 100 != 0) || y % 400 = 0

/-- Number of days of month `m` in year `y` (library calendar rule). -/
def daysInMonth (y m : Nat) : Nat :=
  if m = 2 then (if isLeapYear y then 29 else 28)
  else if m = 4 ∨ m = 6 ∨ m = 9 ∨ m = 11 then 30
  else 31

/-- A date the datetime library accepts: valid month and day, positive year. -/
def Date.valid (d : Date) : Prop :=
  1 ≤ d.year ∧ 1 ≤ d.month ∧ d.month ≤ 12 ∧ 1 ≤ d.day ∧ d.day ≤ daysInMonth d.year d.month

instance (d : Date) : Decidable d.valid := by
  unfold Date.valid; infer_instance

/-- Days elapsed since 0000-03-01 (civil-from-days algorithm used by the
datetime library backing pandas to obtain weekdays). -/
def daysFromCivil (d : Date) : Nat :=
  let y := if d.month ≤ 2 then d.year - 1 else d.year
  let era := y / 400
  let yoe := y % 400
  let mp := (d.month + 9) % 12
  let doy := (153 * mp + 2) / 5 + (d.day - 1)
  let doe := yoe * 365 + yoe / 4 + doy - yoe / 100
  era * 146097 + doe

/-- Weekday index with Monday = 0 .. Sunday = 6 (0000-03-01 was a
Wednesday, and 146097 days per 400-year era is divisible by 7). -/
def weekdayIdx (d : Date) : Nat :=
  (daysFromCivil d + 2) % 7

/-- Full weekday names in Monday-first order, exactly the values produced
by `Series.dt.day_name()` at line 87. -/
def dayNames : List String :=
  ["Monday", "Tuesday", "Wednesday", "Thursday", "Friday", "Saturday", "Sunday"]

/-- The full weekday name of a date, embedding `EventDate.dt.day_name()`. -/
def dayName (d : Date) : String :=
  dayNames.getD (weekdayIdx d) ""

/-- Digit string to number; `none` when empty or a non-digit appears
(the strptime behaviour for a numeric field). -/
def digitsVal : List Char → Option Nat
  | [] => none
  | cs =>
    if cs.all Char.isDigit then
      some (cs.foldl (fun acc c => 10 * acc + (c.toNat - 48)) 0)
    else none

/-- Split a character list at every occurrence of separator `c`. -/
def splitOnChar (c : Char) : List Char → List (List Char)
  | [] => [[]]
  | x :: xs =>
    if x = c then [] :: splitOnChar c xs
    else
      match splitOnChar c xs with
      | ys :: rest => (x :: ys) :: rest
      | [] => [[x]]

/-- Parse the month/day/year date format of the input export
(e.g. `"9/3/2025"`), the format `pd.to_datetime` at line 84 infers for
this data; an invalid or differently-shaped value is coerced to null
(`errors="coerce"`), embedded as `none`. -/
def parseDateMDY (s : String) : Option Date :=
  match splitOnChar '/' s.data with
  | [ms, ds, ys] =>
    match digitsVal ms, digitsVal ds, digitsVal ys with
    | some m, some d, some y =>
      if 1 ≤ y ∧ 1 ≤ m ∧ m ≤ 12 ∧ 1 ≤ d ∧ d ≤ daysInMonth y m then
        some ⟨y, m, d⟩
      else none
    | _, _, _ => none
  | _ => none

/-- ASCII upper-casing of the AM/PM designator characters (strptime `%p`
matches the designator case-insensitively). -/
def upperAmPm (c : Char) : Char :=
  if c = 'a' then 'A' else if c = 'p' then 'P' else if c = 'm' then 'M' else c

/-- Parse a clock time with strptime format `%I:%M%p` (lines 85 and 90):
1-2 digit hour in 1..12, `:`, 1-2 digit minute in 0..59, then the AM/PM
designator; the 12-hour value is converted to the 0-23 hour stored in the
datetime.  Any mismatch is coerced to null (`errors="coerce"`). -/
def parseTime12 (s : String) : Option TimeOfDay :=
  match splitOnChar ':' s.data with
  | [hs, rest] =>
    let ms := rest.takeWhile Char.isDigit
    let ampm := (rest.dropWhile Char.isDigit).map upperAmPm
    match digitsVal hs, digitsVal ms with
    | some h, some m =>
      if 1 ≤ h ∧ h ≤ 12 ∧ hs.length ≤ 2 ∧ m ≤ 59 ∧ ms.length ≤ 2 then
        if ampm = ['A', 'M'] then some ⟨if h = 12 then 0 else h, m⟩
        else if ampm = ['P', 'M'] then some ⟨if h = 12 then 12 else h + 12, m⟩
        else none
      else none
    | _, _ => none
  | _ => none

example : parseTime12 "9:00AM" = some ⟨9, 0⟩ := by decide
example : parseTime12 "11:45PM" = some ⟨23, 45⟩ := by decide
example : parseTime12 "12:30AM" = some ⟨0, 30⟩ := by decide
example : parseTime12 "12:15PM" = some ⟨12, 15⟩ := by decide
example : parseTime12 "13:00PM" = none := by decide
example : parseDateMDY "9/3/2025" = some ⟨2025, 9, 3⟩ := by decide
example : parseDateMDY "2/30/2025" = none := by decide
example : dayName ⟨2025, 9, 3⟩ = "Wednesday" := by decide
example : dayName ⟨1970, 1, 1⟩ = "Thursday" := by decide
example : dayName ⟨2025, 12, 31⟩ = "Wednesday" := by decide
example : dayName ⟨2024, 2, 29⟩ = "Thursday" := by decide

/-- A raw dataframe row as read from the CSV: loosely-typed cells, `none`
standing for a missing (NaN) cell.  Field names follow the export's
column names. -/
structure RawRecord where
  eventId : Option String
  title : Option String
  location : Option String
  department : Option String
  eventDate : Option String
  startTime : Option String
  endTime : Option String
  isAllDayEvent : Bool
  status : Option String
deriving DecidableEq, Repr

/-- Line 84: `df["EventDate"] = pd.to_datetime(df["EventDate"], errors="coerce")`. -/
def parsedEventDate (r : RawRecord) : Option Date :=
  r.eventDate.bind parseDateMDY

/-- Line 85: `df["StartTime_dt"] = pd.to_datetime(df["StartTime"], format="%I:%M%p", errors="coerce")`. -/
def parsedStartTime (r : RawRecord) : Option TimeOfDay :=
  r.startTime.bind parseTime12

/-- Line 90: `df["EndTime_dt"] = pd.to_datetime(df.get("EndTime"), format="%I:%M%p", errors="coerce")`. -/
def parsedEndTime (r : RawRecord) : Option TimeOfDay :=
  r.endTime.bind parseTime12

/-- Line 86: `df["StartHour"] = df["StartTime_dt"].dt.hour` (null when the
parsed time is null). -/
def startHourOf (r : RawRecord) : Option Nat :=
  (parsedStartTime r).map TimeOfDay.hour

/-- Line 87: `df["DayOfWeek"] = df["EventDate"].dt.day_name()` (null when
the parsed date is null). -/
def dayOfWeekOf (r : RawRecord) : Option String :=
  (parsedEventDate r).map dayName

/-- Minutes past midnight contributed by an optional parsed time, with the
`fillna(0)` of lines 93-97 applied to the hour and minute components: a
null time contributes 0 (midnight). -/
def clockMinutes (t : Option TimeOfDay) : Nat :=
  60 * t.elim 0 TimeOfDay.hour + t.elim 0 TimeOfDay.minute

/-- A combined date+time instant, in minutes since the civil epoch (the
embedding of a `datetime64` value; ordering and day arithmetic agree). -/
def instantMinutes (d : Date) (clock : Nat) : Nat :=
  1440 * daysFromCivil d + clock

/-- Lines 93-94: `df["StartDT"] = df["EventDate"].dt.normalize() + to_timedelta(hour.fillna(0)) + to_timedelta(minute.fillna(0))`.
Null exactly when the parsed date is null (`NaT + timedelta = NaT`). -/
def startDTOf (r : RawRecord) : Option Nat :=
  (parsedEventDate r).map fun d => instantMinutes d (clockMinutes (parsedStartTime r))

/-- Lines 96-97: the naive same-day end instant, before the midnight
rollover of lines 100-101. -/
def endDTNaive (r : RawRecord) : Option Nat :=
  (parsedEventDate r).map fun d => instantMinutes d (clockMinutes (parsedEndTime r))

/-- Lines 100-101: `mask_cross_midnight = StartDT.notna & EndDT.notna & (EndDT < StartDT)`;
masked rows get `EndDT + pd.Timedelta(days=1)`. -/
def endDTOf (r : RawRecord) : Option Nat :=
  match startDTOf r, endDTNaive r with
  | some s, some e => if e < s then some (e + 1440) else some e
  | _, _ => endDTNaive r

/-- A normalized dataframe row: the raw cells (the source mutates `df` in
place, so every original column survives) together with the parsed and
derived columns added by lines 84-101. -/
structure NormRecord where
  eventId : Option String
  title : Option String
  location : Option String
  department : Option String
  startTimeRaw : Option String
  endTimeRaw : Option String
  isAllDayEvent : Bool
  status : Option String
  eventDate : Option Date
  startTime_dt : Option TimeOfDay
  endTime_dt : Option TimeOfDay
  startHour : Option Nat
  dayOfWeek : Option String
  startDT : Option Nat
  endDT : Option Nat
deriving DecidableEq, Repr

/-- Row-wise reading of the normalization block, lines 80-101: every
derived column of `df` depends only on cells of the same row. -/
def normalizeRecord (r : RawRecord) : NormRecord where
  eventId := r.eventId
  title := r.title
  location := r.location
  department := r.department
  startTimeRaw := r.startTime
  endTimeRaw := r.endTime
  isAllDayEvent := r.isAllDayEvent
  status := r.status
  eventDate := parsedEventDate r
  startTime_dt := parsedStartTime r
  endTime_dt := parsedEndTime r
  startHour := startHourOf r
  dayOfWeek := dayOfWeekOf r
  startDT := startDTOf r
  endDT := endDTOf r

/-- The whole normalization block applied to the record set: a column-wise
(hence row-wise independent) transformation with no row insertion or
deletion. -/
def normalizeRecords (rs : List RawRecord) : List NormRecord :=
  rs.map normalizeRecord

/-- Lines 130-131: `if loc_filter: filtered = filtered[filtered["Location"].isin(loc_filter)]`.
An empty Python list is falsy, so an empty selection skips the filter;
`isin` is false for a null cell. -/
def applyLocFilter (sel : List String) (rs : List NormRecord) : List NormRecord :=
  if sel.isEmpty then rs
  else rs.filter fun r => r.location.elim false fun l => sel.contains l

/-- Lines 132-133: the Department multiselect filter, same semantics. -/
def applyDeptFilter (sel : List String) (rs : List NormRecord) : List NormRecord :=
  if sel.isEmpty then rs
  else rs.filter fun r => r.department.elim false fun l => sel.contains l

/-- `filtered["EventDate"].dt.date.nunique()` at line 144: the number of
distinct non-null event dates (`nunique` drops NaN by default). -/
def uniqueEventDates (rs : List NormRecord) : Nat :=
  (rs.filterMap NormRecord.eventDate).dedup.length

/-- The denominator `max(1, filtered["EventDate"].dt.date.nunique())` of
the "Avg / Day" metric at line 144. -/
def avgPerDayDen (rs : List NormRecord) : Nat :=
  max 1 (uniqueEventDates rs)

/-- `round(x, 1)` at line 144, abstracted as exact rational rounding to
one decimal place (binary-float representation and its tie behaviour are
not modelled; no claim depends on them). -/
def round1 (q : ℚ) : ℚ :=
  ((round (q * 10) : ℤ) : ℚ) / 10

/-- Line 144: `round(len(filtered) / max(1, filtered["EventDate"].dt.date.nunique()), 1)`. -/
def avgPerDay (rs : List NormRecord) : ℚ :=
  round1 ((rs.length : ℚ) / (avgPerDayDen rs : ℚ))

/-- Descending-count order on `(Category, Count)` rows, the sort key of
`value_counts()` (ascending=False on the counts). -/
def countGE (a b : String × Nat) : Prop := b.2 ≤ a.2

instance : DecidableRel countGE := fun a b => Nat.decLe b.2 a.2

instance : IsTotal (String × Nat) countGE := ⟨fun a b => Nat.le_total b.2 a.2⟩

instance : IsTrans (String × Nat) countGE := ⟨fun _ _ _ h1 h2 => Nat.le_trans h2 h1⟩

/-- Distinct values of a list in first-encountered order (the group keys
underlying `value_counts`). -/
def distinctInOrder (vals : List String) : List String :=
  vals.foldl (fun acc v => if v ∈ acc then acc else acc ++ [v]) []

/-- `series.dropna().astype(str).value_counts()` at line 152: one
`(category, count)` row per distinct non-null value, sorted by count
descending (tie order among equal counts is not fixed by the source). -/
def valueCounts (xs : List (Option String)) : List (String × Nat) :=
  let vals := xs.filterMap id
  List.insertionSort countGE ((distinctInOrder vals).map fun c => (c, vals.count c))

/-- Lines 151-162: keep the `top_n` most frequent categories and append a
synthetic `"Other"` row holding the summed remainder when it is positive. -/
def top_n_with_other (xs : List (Option String)) (top_n : Nat := 8) : List (String × Nat) :=
  let vc := valueCounts xs
  let top := vc.take top_n
  let other := ((vc.drop top_n).map Prod.snd).sum
  if other > 0 then top ++ [("Other", other)] else top

/-- Lines 233-234: `filtered.dropna(subset=["StartHour"])`, the record set
the hour histogram groups over. -/
def hourChartBase (rs : List NormRecord) : List NormRecord :=
  rs.filter fun r => r.startHour.isSome

/-- Lines 256-257: `filtered.dropna(subset=["DayOfWeek"])`, the record set
the day-of-week bar chart groups over. -/
def dowChartBase (rs : List NormRecord) : List NormRecord :=
  rs.filter fun r => r.dayOfWeek.isSome

/-- `.groupby("StartHour").size()` over the hour-chart base (lines
233-239): reservation count per present start hour, ascending by hour. -/
def hour_counts (rs : List NormRecord) : List (Nat × Nat) :=
  let hs := (hourChartBase rs).filterMap NormRecord.startHour
  (List.insertionSort (fun a b => a ≤ b) hs.dedup).map fun h => (h, hs.count h)

/-- The expected columns of the input export (spec section 6). -/
def expectedColumns : List String :=
  ["EventId", "Title", "Location", "Department", "EventDate", "StartTime",
   "EndTime", "IsAllDayEvent", "IsTimedEvent", "EventType", "ContactName",
   "ContactEmail", "ContactPhone", "IsReOccurring", "IsOnMultipleCalendars",
   "Status", "EventTypeName"]

/-- Column-presence semantics of the load/normalize/filter pipeline, in
source order: `df["EventDate"]` (line 84), `df["StartTime"]` (line 85),
`filtered["Location"]` (line 124) and `filtered["Department"]` (line 125)
raise an uncaught `KeyError` when the column is absent; `df.get("EndTime")`
(line 90) returns `None` and degrades to an all-null column; no other
column is accessed unguarded before rendering, and `EventId` is never
accessed at all. -/
def runColumnChecks (cols : List String) : Except String Unit :=
  if "EventDate" ∈ cols then
    if "StartTime" ∈ cols then
      if "Location" ∈ cols then
        if "Department" ∈ cols then Except.ok ()
        else Except.error "KeyError: Department"
      else Except.error "KeyError: Location"
    else Except.error "KeyError: StartTime"
  else Except.error "KeyError: EventDate"

deriving instance DecidableEq for Except

/-- Python `min(xs, key=key)` for a nonempty list: the first element
attaining the minimal key. -/
def pyMinBy (key : Int → Nat) : List Int → Option Int
  | [] => none
  | x :: xs => some (xs.foldl (fun acc y => if key y < key acc then y else acc) x)

/-- `abs(d - picked_day)` on calendar days (dates embedded as day numbers,
so subtraction is a day count). -/
def dayDist (a b : Int) : Nat := (a - b).natAbs

/-- The snap rule the source records twice — at the dedented duplicate
block of lines 351-355 and again at lines 357-362: if the picked day has
no events, replace it by
`min(sorted(gantt_days), key=lambda d: abs(d - picked_day))` and emit the
substitution caption (the Bool records whether the caption was shown).
This is the rule as written; `ganttPickerRun` below records that an
execution of the source never reaches it. -/
def snapPickedDay (ganttDays : List Int) (picked : Int) : Int × Bool :=
  if picked ∈ ganttDays then (picked, false)
  else
    match pyMinBy (fun d => dayDist d picked) (List.insertionSort (fun a b => a ≤ b) ganttDays) with
    | some d => (d, true)
    | none => (picked, false)

/-- C1: normalization (lines 80-101) is pure and total: it is a map over
the rows, so the output has exactly the length of the input and the `i`-th
output row is the normalization of the `i`-th input row — no row is
dropped, duplicated, or reordered. -/
theorem normalization_total_one_to_one (rs : List RawRecord) :
    (normalizeRecords rs).length = rs.length ∧
    ∀ i : Nat, (normalizeRecords rs)[i]? = (rs[i]?).map normalizeRecord := by
  refine ⟨List.length_map _ _, fun i => ?_⟩
  simp [normalizeRecords]

/-- C9: applying the Location or Department multiselect filter with an
empty selection (lines 130-133) is the identity on the record set. -/
theorem empty_filter_identity (rs : List NormRecord) :
    applyLocFilter [] rs = rs ∧ applyDeptFilter [] rs = rs := by
  constructor <;> simp [applyLocFilter, applyDeptFilter]

/-- C10: the "Avg / Day" KPI (line 144) is total: its denominator is
`max 1 (number of distinct event dates)`, hence positive, and the metric
evaluates to 0 on the empty filtered set. -/
theorem avg_per_day_total (rs : List NormRecord) :
    avgPerDayDen rs = max 1 (uniqueEventDates rs) ∧
    0 < avgPerDayDen rs ∧
    avgPerDay [] = 0 := by
  refine ⟨rfl, lt_of_lt_of_le Nat.zero_lt_one (le_max_left _ _), ?_⟩
  simp [avgPerDay, round1]

/-- C2: whenever both combined instants are defined, the stored `EndDT`
(lines 100-101) is the naive same-day combination advanced by exactly one
calendar day (1440 minutes) if the end clock time precedes the start clock
time, and the naive combination unchanged otherwise; rows with an
undefined instant keep the naive value. -/
theorem endInstant_midnight_rollover (r : RawRecord) :
    (∀ s e : Nat, startDTOf r = some s → endDTNaive r = some e →
      (clockMinutes (parsedEndTime r) < clockMinutes (parsedStartTime r) →
        endDTOf r = some (e + 1440)) ∧
      (clockMinutes (parsedStartTime r) ≤ clockMinutes (parsedEndTime r) →
        endDTOf r = some e)) ∧
    ((startDTOf r).isNone ∨ (endDTNaive r).isNone → endDTOf r = endDTNaive r) := by
  constructor
  · intro s e hs he
    cases hd : parsedEventDate r with
    | none => simp [startDTOf, hd] at hs
    | some d =>
      simp only [startDTOf, hd, Option.map_some', Option.some.injEq] at hs
      simp only [endDTNaive, hd, Option.map_some', Option.some.injEq] at he
      constructor <;> intro hcl <;>
        simp only [endDTOf, startDTOf, endDTNaive, hd, Option.map_some']
      · rw [if_pos (by unfold instantMinutes; omega), he]
      · rw [if_neg (by unfold instantMinutes; omega), he]
  · intro h
    cases hd : parsedEventDate r with
    | none => simp [endDTOf, startDTOf, endDTNaive, hd]
    | some d => simp [startDTOf, endDTNaive, hd] at h

/-- A record matching the spec's cross-midnight example: start 11:30PM,
end 12:30AM on the same recorded date. -/
def lateNightRec : RawRecord where
  eventId := some "1"
  title := some "Night shift"
  location := some "Lab"
  department := some "IT"
  eventDate := some "9/3/2025"
  startTime := some "11:30PM"
  endTime := some "12:30AM"
  isAllDayEvent := false
  status := some "Confirmed"

/-- C2 witness: on the cross-midnight example record the rollover theorem
applies and yields the naive end instant plus one day. -/
theorem endInstant_midnight_rollover_witness :
    endDTOf lateNightRec = some (instantMinutes ⟨2025, 9, 3⟩ 30 + 1440) :=
  (((endInstant_midnight_rollover lateNightRec).1
      (instantMinutes ⟨2025, 9, 3⟩ 1410) (instantMinutes ⟨2025, 9, 3⟩ 30)
      (by decide) (by decide)).1) (by decide)

/-- A record with a present, parseable date but a missing start time. -/
def recNoStartTime : RawRecord where
  eventId := some "7"
  title := some "Setup"
  location := some "Hall"
  department := some "Events"
  eventDate := some "9/3/2025"
  startTime := none
  endTime := some "11:00AM"
  isAllDayEvent := false
  status := some "Confirmed"

/-- C3 counterexample: a record whose start time is missing but whose date
is present gets a midnight-defaulted start instant (`fillna(0)` at lines
93-94), not a null one, contradicting the claim that a missing time makes
the instant null. -/
theorem missing_time_defaults_to_midnight_cex :
    recNoStartTime.startTime = none ∧
    (parsedEventDate recNoStartTime).isSome = true ∧
    startDTOf recNoStartTime = some (instantMinutes ⟨2025, 9, 3⟩ 0) := by decide

/-- C3 amended: a combined instant is null exactly when the parsed event
date is null; a missing time with a present date instead contributes
00:00, so the instant is the date's midnight (naive, before rollover for
the end side). -/
theorem instant_null_iff_date_null (r : RawRecord) :
    (parsedEventDate r = none → startDTOf r = none ∧ endDTOf r = none) ∧
    (∀ d : Date, parsedEventDate r = some d →
      (startDTOf r).isSome ∧ (endDTOf r).isSome ∧
      (parsedStartTime r = none → startDTOf r = some (instantMinutes d 0)) ∧
      (parsedEndTime r = none → endDTNaive r = some (instantMinutes d 0))) := by
  constructor
  · intro hd
    simp [startDTOf, endDTOf, endDTNaive, hd]
  · intro d hd
    refine ⟨by simp [startDTOf, hd], ?_, ?_, ?_⟩
    · simp only [endDTOf, startDTOf, endDTNaive, hd, Option.map_some']
      split <;> simp
    · intro hst; simp [startDTOf, hd, hst, clockMinutes]
    · intro het; simp [endDTNaive, hd, het, clockMinutes]

/-- C3 amended witness: the missing-start-time record evaluates to a
midnight start instant through the amended theorem. -/
theorem instant_null_iff_date_null_witness :
    startDTOf recNoStartTime = some (instantMinutes ⟨2025, 9, 3⟩ 0) :=
  ((instant_null_iff_date_null recNoStartTime).2 ⟨2025, 9, 3⟩ (by decide)).2.2.1 (by decide)

/-- The `%I:%M%p` parser only produces hours in 0..23: AM maps 12 to 0 and
keeps 1..11; PM maps 12 to 12 and 1..11 to 13..23. -/
theorem parseTime12_hour_le (s : String) (t : TimeOfDay)
    (h : parseTime12 s = some t) : t.hour ≤ 23 := by
  unfold parseTime12 at h
  split at h
  · dsimp only at h
    split at h
    · split at h
      · split at h
        · cases h
          dsimp only
          split <;> omega
        · split at h
          · cases h
            dsimp only
            split <;> omega
          · exact Option.noConfusion h
      · exact Option.noConfusion h
    · exact Option.noConfusion h
  · exact Option.noConfusion h

/-- C4: for a record with a parseable event date and start time,
`StartHour` (line 86) is the parsed time's hour, an integer at most 23,
and `DayOfWeek` (line 87) is the weekday name of the parsed date, one of
the seven full Monday..Sunday names; a null parsed start time gives a null
`StartHour` and a null parsed date gives a null `DayOfWeek`. -/
theorem startHour_dayOfWeek_correct (r : RawRecord) :
    (∀ (d : Date) (t : TimeOfDay),
      parsedEventDate r = some d → parsedStartTime r = some t →
      startHourOf r = some t.hour ∧ t.hour ≤ 23 ∧
      dayOfWeekOf r = some (dayName d) ∧ dayName d ∈ dayNames) ∧
    (parsedStartTime r = none → startHourOf r = none) ∧
    (parsedEventDate r = none → dayOfWeekOf r = none) := by
  refine ⟨fun d t hd ht => ⟨?_, ?_, ?_, ?_⟩, fun h => ?_, fun h => ?_⟩
  · simp [startHourOf, ht]
  · cases hraw : r.startTime with
    | none => simp [parsedStartTime, hraw] at ht
    | some s =>
      simp only [parsedStartTime, hraw, Option.some_bind] at ht
      exact parseTime12_hour_le s t ht
  · simp [dayOfWeekOf, hd]
  · have hlt : weekdayIdx d < 7 := Nat.mod_lt _ (by omega)
    unfold dayName
    interval_cases h : weekdayIdx d <;> simp [dayNames]
  · simp [startHourOf, h]
  · simp [dayOfWeekOf, h]

/-- The spec's canonical example row: date 9/3/2025, start 9:00AM. -/
def exampleRec : RawRecord where
  eventId := some "3"
  title := some "Seminar"
  location := some "Room 101"
  department := some "CS"
  eventDate := some "9/3/2025"
  startTime := some "9:00AM"
  endTime := some "11:00PM"
  isAllDayEvent := false
  status := some "Confirmed"

/-- C4 witness: on the spec's example row the theorem yields start hour 9
and weekday "Wednesday". -/
theorem startHour_dayOfWeek_correct_witness :
    startHourOf exampleRec = some 9 ∧ dayOfWeekOf exampleRec = some "Wednesday" := by
  have h := (startHour_dayOfWeek_correct exampleRec).1 ⟨2025, 9, 3⟩ ⟨9, 0⟩
    (by decide) (by decide)
  exact ⟨h.1, h.2.2.1.trans (by decide)⟩

/-- The counts of the first `n` rows and of the remaining rows add up to
the total count of a category table. -/
theorem sum_take_add_sum_drop (l : List (String × Nat)) (n : Nat) :
    ((l.take n).map Prod.snd).sum + ((l.drop n).map Prod.snd).sum
      = (l.map Prod.snd).sum := by
  conv_rhs => rw [← List.take_append_drop n l]
  rw [List.map_append, List.sum_append]

/-- C5: `top_n_with_other` (lines 151-162) keeps the value-count table's
first `n` rows — the table being sorted by descending count — and appends
a single `"Other"` row carrying the total count minus the top-`n` count
when that remainder is positive, and appends nothing when the remainder is
zero. -/
theorem top_n_with_other_spec (xs : List (Option String)) (n : Nat) :
    List.Sorted countGE (valueCounts xs) ∧
    (0 < ((valueCounts xs).map Prod.snd).sum
          - (((valueCounts xs).take n).map Prod.snd).sum →
      top_n_with_other xs n =
        (valueCounts xs).take n ++
          [("Other", ((valueCounts xs).map Prod.snd).sum
              - (((valueCounts xs).take n).map Prod.snd).sum)]) ∧
    (((valueCounts xs).map Prod.snd).sum
        = (((valueCounts xs).take n).map Prod.snd).sum →
      top_n_with_other xs n = (valueCounts xs).take n) := by
  have hsum := sum_take_add_sum_drop (valueCounts xs) n
  refine ⟨?_, fun hpos => ?_, fun heq => ?_⟩
  · exact List.sorted_insertionSort countGE _
  · have hd : ((valueCounts xs).drop n |>.map Prod.snd).sum
        = ((valueCounts xs).map Prod.snd).sum
          - (((valueCounts xs).take n).map Prod.snd).sum := by omega
    simp only [top_n_with_other]
    rw [hd, if_pos hpos]
  · have hd : ((valueCounts xs).drop n |>.map Prod.snd).sum = 0 := by omega
    simp only [top_n_with_other]
    rw [hd, if_neg (by omega)]

/-- C5 witness: on a three-value distribution with `n = 1` the remainder
is positive and the `"Other"` row is appended with it. -/
theorem top_n_with_other_spec_witness :
    top_n_with_other [some "a", some "a", some "b"] 1
      = (valueCounts [some "a", some "a", some "b"]).take 1 ++
          [("Other", ((valueCounts [some "a", some "a", some "b"]).map Prod.snd).sum
              - (((valueCounts [some "a", some "a", some "b"]).take 1).map Prod.snd).sum)] :=
  (top_n_with_other_spec [some "a", some "a", some "b"] 1).2.1 (by decide)

/-- C6 counterexample: dropping the identifier column `EventId` from the
expected column set leaves the pipeline's column accesses satisfied — no
error is raised for the missing identifier — while dropping the optional
column `StartTime` makes the load abort with a `KeyError`. -/
theorem identifier_column_unchecked_cex :
    runColumnChecks (expectedColumns.erase "EventId") = Except.ok () ∧
    runColumnChecks (expectedColumns.erase "StartTime") ≠ Except.ok () := by decide

/-- C6 amended: the load/normalize/filter pipeline succeeds exactly when
`EventDate`, `StartTime`, `Location` and `Department` are all present;
`EndTime` is the only gracefully-degrading column (`df.get`, line 90), and
the identifier column `EventId` is never consulted, so its absence is
neither a warning nor an error. -/
theorem column_requirements_exact (cols : List String) :
    runColumnChecks cols = Except.ok () ↔
      ("EventDate" ∈ cols ∧ "StartTime" ∈ cols ∧
       "Location" ∈ cols ∧ "Department" ∈ cols) := by
  unfold runColumnChecks
  split_ifs with h1 h2 h3 h4 <;> simp_all

/-- C6 amended witness: the four accessed columns alone, without
`EventId` or `EndTime`, already make the pipeline's accesses succeed. -/
theorem column_requirements_exact_witness :
    runColumnChecks ["EventDate", "StartTime", "Location", "Department"]
      = Except.ok () :=
  (column_requirements_exact _).mpr (by decide)

/-- An all-day-flagged record that also carries a parseable date and
parseable times, as the export allows. -/
def allDayRec : RawRecord where
  eventId := some "2"
  title := some "Career Fair"
  location := some "Gym"
  department := some "Athletics"
  eventDate := some "9/3/2025"
  startTime := some "9:00AM"
  endTime := some "5:00PM"
  isAllDayEvent := true
  status := some "Confirmed"

/-- C7 counterexample: an all-day-flagged record with a parseable date and
start time is dropped from neither the hour chart's nor the day-of-week
chart's record base (lines 233-234, 256-257) — the flag is never
consulted, so the record is not excluded as claimed. -/
theorem allday_in_charts_cex :
    allDayRec.isAllDayEvent = true ∧
    hourChartBase (normalizeRecords [allDayRec]) = normalizeRecords [allDayRec] ∧
    dowChartBase (normalizeRecords [allDayRec]) = normalizeRecords [allDayRec] := by decide

/-- C7 amended: all-day records pass through normalization with cardinality
preserved, and chart membership ignores the all-day flag entirely: a
record is in the hour chart's base exactly when its `StartHour` is
non-null, and in the day-of-week chart's base exactly when its
`DayOfWeek` is non-null. -/
theorem chart_exclusion_by_nullness (raws : List RawRecord)
    (rs : List NormRecord) (r : NormRecord) :
    (normalizeRecords raws).length = raws.length ∧
    (r ∈ hourChartBase rs ↔ r ∈ rs ∧ r.startHour.isSome) ∧
    (r ∈ dowChartBase rs ↔ r ∈ rs ∧ r.dayOfWeek.isSome) := by
  refine ⟨List.length_map _ _, ?_, ?_⟩ <;>
    simp [hourChartBase, dowChartBase, List.mem_filter]

/-- C7 amended witness: the normalized all-day example record is a member
of the hour chart base of its own one-row set. -/
theorem chart_exclusion_by_nullness_witness :
    normalizeRecord allDayRec ∈ hourChartBase (normalizeRecords [allDayRec]) :=
  ((chart_exclusion_by_nullness [] (normalizeRecords [allDayRec])
      (normalizeRecord allDayRec)).2.1).mpr (by decide)

/-- The fold underlying Python `min(..., key=...)` returns the initial
value or a list element, and its key is minimal among both. -/
theorem foldlMin_spec (key : Int → Nat) (l : List Int) (a : Int) :
    (l.foldl (fun acc y => if key y < key acc then y else acc) a = a ∨
     l.foldl (fun acc y => if key y < key acc then y else acc) a ∈ l) ∧
    key (l.foldl (fun acc y => if key y < key acc then y else acc) a) ≤ key a ∧
    ∀ y ∈ l, key (l.foldl (fun acc y => if key y < key acc then y else acc) a) ≤ key y := by
  induction l generalizing a with
  | nil => simp
  | cons x xs ih =>
    simp only [List.foldl_cons]
    by_cases hx : key x < key a
    · rw [if_pos hx]
      obtain ⟨h1, h2, h3⟩ := ih x
      refine ⟨?_, le_of_lt (lt_of_le_of_lt h2 hx), ?_⟩
      · rcases h1 with h | h
        · exact Or.inr (by rw [h]; exact List.mem_cons_self x xs)
        · exact Or.inr (List.mem_cons_of_mem x h)
      · intro y hy
        rcases List.mem_cons.mp hy with rfl | hy
        · exact h2
        · exact h3 y hy
    · rw [if_neg hx]
      obtain ⟨h1, h2, h3⟩ := ih a
      refine ⟨?_, h2, ?_⟩
      · rcases h1 with h | h
        · exact Or.inl h
        · exact Or.inr (List.mem_cons_of_mem x h)
      · intro y hy
        rcases List.mem_cons.mp hy with rfl | hy
        · exact le_trans h2 (le_of_not_lt hx)
        · exact h3 y hy

/-- `pyMinBy` on a nonempty list yields an element of minimal key. -/
theorem pyMinBy_spec (key : Int → Nat) (l : List Int) (m : Int)
    (h : pyMinBy key l = some m) : m ∈ l ∧ ∀ y ∈ l, key m ≤ key y := by
  cases l with
  | nil => exact Option.noConfusion h
  | cons x xs =>
    simp only [pyMinBy, Option.some.injEq] at h
    obtain ⟨h1, h2, h3⟩ := foldlMin_spec key xs x
    subst h
    constructor
    · rcases h1 with h | h
      · rw [h]; exact List.mem_cons_self x xs
      · exact List.mem_cons_of_mem x h
    · intro y hy
      rcases List.mem_cons.mp hy with rfl | hy
      · exact h2
      · exact h3 y hy

/-- The recorded snap rule satisfies the nearest-day contract: when the
picked day has no events and the available day set is nonempty, it
returns an available day of minimal absolute day-distance to the picked
day, with the substitution caption shown.  This is a property of the rule
written at lines 351-362, which supports that the snap-and-inform
behaviour is the evident intent of the code; `gantt_snap_unreachable`
below shows an execution never reaches it. -/
theorem gantt_snap_nearest_day (ganttDays : List Int) (picked : Int)
    (hne : ganttDays ≠ []) (hnm : picked ∉ ganttDays) :
    (snapPickedDay ganttDays picked).1 ∈ ganttDays ∧
    (∀ e ∈ ganttDays,
      dayDist (snapPickedDay ganttDays picked).1 picked ≤ dayDist e picked) ∧
    (snapPickedDay ganttDays picked).2 = true := by
  have hperm := List.perm_insertionSort (fun a b : Int => a ≤ b) ganttDays
  unfold snapPickedDay
  rw [if_neg hnm]
  cases hsorted : List.insertionSort (fun a b : Int => a ≤ b) ganttDays with
  | nil =>
    exact absurd (hsorted ▸ hperm).nil_eq.symm hne
  | cons x xs =>
    have hp : pyMinBy (fun d => dayDist d picked) (x :: xs)
        = some (xs.foldl
            (fun acc y => if dayDist y picked < dayDist acc picked then y else acc) x) := rfl
    obtain ⟨hm, hmin⟩ := pyMinBy_spec _ _ _ hp
    rw [hp]
    dsimp only
    have hmem : ∀ z : Int, z ∈ x :: xs ↔ z ∈ ganttDays :=
      fun z => (hsorted ▸ hperm).mem_iff
    exact ⟨(hmem _).mp hm, fun e he => hmin e ((hmem e).mpr he), rfl⟩

/-- Concrete instance of the recorded snap rule: picking day 13 when only
days 10 and 20 have events snaps to a member of the set and shows the
caption; 10 is the closer day. -/
theorem gantt_snap_nearest_day_witness :
    (snapPickedDay [10, 20] 13).1 ∈ ([10, 20] : List Int) ∧
    (snapPickedDay [10, 20] 13).2 = true :=
  ⟨(gantt_snap_nearest_day [10, 20] 13 (by decide) (by decide)).1,
   (gantt_snap_nearest_day [10, 20] 13 (by decide) (by decide)).2.2⟩

/-- The modules loaded by the three import lines of `app.py` (lines 1-3):
streamlit, pandas and plotly.express.  `datetime` is not among them. -/
def importedModules : List String :=
  ["streamlit", "pandas", "plotly.express"]

/-- Python name resolution for a module-level name: the name is defined
only when some import line loaded its module; otherwise evaluating it
raises a NameError. -/
def lookupModule (m : String) : Except String Unit :=
  if m ∈ importedModules then Except.ok ()
  else Except.error ("NameError: name " ++ m ++ " is not defined")

/-- Execution of the Gantt picker block (lines 327-362) on the current
day set, step by step in source order.  An empty day set only shows an
info message (line 328), embedded as `ok none`.  With a nonempty day set,
line 334 evaluates `datetime.date.today()` before the picker is built,
and the name `datetime` was never loaded by any import line, so the block
aborts with a NameError before the picker and the snap of lines 351-362
can run.  (The file in fact fails one step earlier still, at parse time:
the dedented duplicate of the snap block at lines 351-355 closes the
`else:` suite, so the re-indented line 358 is an IndentationError; an
embedding of run-time behaviour cannot execute a file that does not
parse, and this definition records the first failure an execution of the
block would reach.) -/
def ganttPickerRun (ganttDays : List Int) (picked : Int) :
    Except String (Option (Int × Bool)) :=
  if ganttDays.isEmpty then Except.ok none
  else
    (lookupModule "datetime").bind fun _ =>
      Except.ok (some (snapPickedDay ganttDays picked))

/-- C8: the claimed snap-and-inform behaviour is right as intent but
unreachable in the code.  At the claim's example input — events on days
10 and 20 with day 13 picked — the Gantt block aborts with a NameError at
line 334 because `datetime` is never imported (and the file already fails
to parse at line 358, from the dedented duplicate snap block at lines
351-355), so no substitution or caption ever happens; yet the snap rule
the source records twice would have selected day 10, the nearest day with
events, and shown the caption. -/
theorem gantt_snap_unreachable :
    ganttPickerRun [10, 20] 13
      = Except.error "NameError: name datetime is not defined" ∧
    snapPickedDay [10, 20] 13 = (10, true) := by decide
